import Mathlib

/-!
Verification development for the VertechX credential server.

The definitions below are shallow embeddings of the verification,
issuance, revocation and DID-management logic of the repository
(server/routes.ts, server/storage.ts, server/crypto.ts).  Timestamps
are modelled as integers (milliseconds since the epoch), JSON presence
and JS truthiness of string fields are modelled with Option, and the
external WebCrypto primitives are passed in as explicit function
parameters.
-/

namespace VertechX

/-! ### Data model (shared/schema.ts) -/

/-- The proof envelope attached to a credential; only the signature
field is inspected by the verification logic. -/
structure CredProof where
  signature : String
deriving Repr, DecidableEq

/-- A credential as seen by the verification entry points: either a
stored row or a raw JSON document.  Fields that JS tests for
truthiness are Options; credentialSubject is kept as its serialized
payload. -/
structure Cred where
  id : Option String
  didId : Option String
  title : Option String
  status : Option String
  expiresAt : Option Int
  credentialSubject : Option String
  proof : Option CredProof
  shareToken : Option String
deriving Repr, DecidableEq

/-- A DID row (dids table). -/
structure DidRec where
  id : String
  userId : String
  didString : String
  publicKey : String
deriving Repr, DecidableEq

/-- A user row; currentDidId is the single mutable current-DID pointer. -/
structure UserRec where
  id : String
  currentDidId : Option String
deriving Repr, DecidableEq

/-- A verification audit row (verifications table); result keeps the
boolean detail map written by the handler. -/
structure VerifRec where
  credentialId : Option String
  verifierDid : Option String
  isValid : String
  verificationMethod : String
  result : List (String × Bool)
deriving Repr, DecidableEq

/-- An activity-log row. -/
structure ActivityRec where
  didId : Option String
  type : String
deriving Repr, DecidableEq

/-- An organization row (admin portal accounts). -/
structure OrgRec where
  id : String
  name : String
deriving Repr, DecidableEq

/-- The storage state: the tables touched by the embedded handlers. -/
structure St where
  users : List UserRec
  dids : List DidRec
  creds : List Cred
  verifs : List VerifRec
  acts : List ActivityRec
  orgs : List OrgRec
deriving Repr, DecidableEq

/-! ### Boolean checks shared by the verification entry points
(routes.ts lines 569-609, 948-966, 1105-1115) -/

/-- JS truthiness of an optional string field (absent or empty is falsy). -/
def truthyStr : Option String → Bool
  | some s => !(s == "")
  | none => false

/-- JS whitespace as relevant to status strings. -/
def isWsChar (c : Char) : Bool := c == ' ' || c == '\t' || c == '\n' || c == '\r'

/-- JS String.prototype.trim over the characters of the string. -/
def jsTrim (s : String) : String :=
  String.mk (((s.data.dropWhile isWsChar).reverse.dropWhile isWsChar).reverse)

/-- ASCII lowering of one character (JS toLowerCase on the ASCII range). -/
def lowerChar (c : Char) : Char :=
  if ('A' ≤ c ∧ c ≤ 'Z') then Char.ofNat (c.toNat + 32) else c

/-- JS String.prototype.toLowerCase over the characters of the string. -/
def jsToLower (s : String) : String := String.mk (s.data.map lowerChar)

/-- typeof status being a string, trimmed and lowercased, else the
empty string. -/
def normStatus (c : Cred) : String :=
  match c.status with
  | some s => jsToLower (jsTrim s)
  | none => ""

def statusVerifiedOf (c : Cred) : Bool := normStatus c == "verified"

def isRevokedOf (c : Cred) : Bool := normStatus c == "revoked"

/-- expiresAt truthy means compare with now, else not expired; the
comparison is strict (expiresAt must exceed now). -/
def notExpiredOf (c : Cred) (now : Int) : Bool :=
  match c.expiresAt with
  | some t => decide (now < t)
  | none => true

/-- issuerTrusted is the constant true in every entry point. -/
def issuerTrusted : Bool := true

/-! ### Self-serve verification, POST /api/verify (routes.ts 903-1011) -/

/-- Structural guard of the self-serve path: proof, credentialSubject
and title must all be truthy. -/
def selfGuard (c : Cred) : Bool :=
  c.proof.isSome && c.credentialSubject.isSome && truthyStr c.title

/-- The self-serve signatureValid detail, a constant (routes.ts 952). -/
def selfSignatureValid : Bool := true

/-- The self-serve proofVerified detail, a constant (routes.ts 961). -/
def selfProofVerified : Bool := true

/-- Final validity of the self-serve path (routes.ts 966). -/
def selfServeIsValid (c : Cred) (now : Int) : Bool :=
  !(isRevokedOf c) && selfSignatureValid && notExpiredOf c now && issuerTrusted
    && selfProofVerified && statusVerifiedOf c

/-! ### Admin verification, POST /api/admin/verify (routes.ts 533-645) -/

/-- Structural guard of the admin path: proof and credentialSubject
must be truthy (routes.ts 565). -/
def adminGuard (c : Cred) : Bool :=
  c.proof.isSome && c.credentialSubject.isSome

/-- The admin proofVerified detail: a proof object with a truthy
signature field (routes.ts 603). -/
def adminProofVerified (c : Cred) : Bool :=
  match c.proof with
  | some p => !(p.signature == "")
  | none => false

/-- The admin actual-signature check (routes.ts 579-594): resolve the
issuing DID, then call the signature primitive on the stored public
key.  The cryptographic primitive rawVerify is a parameter. -/
def adminActualSignatureValid (rawVerify : String → String → String → Bool)
    (dids : List DidRec) (c : Cred) : Bool :=
  match c.didId with
  | none => false
  | some di =>
    match dids.find? (fun d => d.id == di) with
    | none => false
    | some d =>
      match c.proof with
      | some p =>
        if p.signature == "" then false
        else rawVerify (c.credentialSubject.getD "") p.signature d.publicKey
      | none => false

/-- The admin signatureValid detail: trusted to true when the status is
already verified, else the actual check (routes.ts 599). -/
def adminSignatureValidDetail (rawVerify : String → String → String → Bool)
    (dids : List DidRec) (c : Cred) : Bool :=
  if statusVerifiedOf c then true else adminActualSignatureValid rawVerify dids c

/-- Final validity of the admin path (routes.ts 608-609). -/
def adminIsValid (c : Cred) (now : Int) : Bool :=
  !(isRevokedOf c) && statusVerifiedOf c && notExpiredOf c now && issuerTrusted
    && adminProofVerified c

/-- The full admin response pair: final validity plus detail booleans
(routes.ts 629-640). -/
structure AdminResult where
  isValid : Bool
  signatureValid : Bool
  notExpired : Bool
  issuerTrustedD : Bool
  proofVerified : Bool
  statusVerified : Bool
deriving Repr, DecidableEq

def adminVerifyResult (rawVerify : String → String → String → Bool)
    (dids : List DidRec) (c : Cred) (now : Int) : AdminResult :=
  { isValid := adminIsValid c now
    signatureValid := adminSignatureValidDetail rawVerify dids c
    notExpired := notExpiredOf c now
    issuerTrustedD := issuerTrusted
    proofVerified := adminProofVerified c
    statusVerified := statusVerifiedOf c }

/-! ### Public verification, GET /api/verify/:shareToken
(routes.ts 1093-1130) -/

/-- Final validity of the public share-token path (routes.ts 1115). -/
def publicIsValid (c : Cred) (now : Int) : Bool :=
  !(isRevokedOf c) && notExpiredOf c now && (normStatus c == "verified")

/-! ### Spec-side validity formula.
Modelled from the spec for the refinement claim about final validity:
proofVerified is true iff a proof is present with a non-empty
signature field, and isValid is the conjunction of the five named
checks. -/

/-- Follows the words of the spec: proofVerified holds iff a proof is
present with a non-empty signature field. -/
def specProofVerified (c : Cred) : Bool :=
  match c.proof with
  | some p => !(p.signature == "")
  | none => false

/-- Follows the words of the spec: the final validity formula claimed
for every entry point. -/
def specIsValid (c : Cred) (now : Int) : Bool :=
  !(isRevokedOf c) && statusVerifiedOf c && notExpiredOf c now && issuerTrusted
    && specProofVerified c

/-- Replace the signature inside the proof envelope, leaving every
other field alone (used to compare runs that differ only there). -/
def setSignature (c : Cred) (s : String) : Cred :=
  { c with proof := c.proof.map (fun _ => { signature := s }) }

/-! ### Storage operations (server/storage.ts) -/

def getCredential (st : St) (id : String) : Option Cred :=
  st.creds.find? (fun c => c.id == some id)

def getCredentialByShareToken (st : St) (tok : String) : Option Cred :=
  st.creds.find? (fun c => c.shareToken == some tok)

def getDid (st : St) (id : String) : Option DidRec :=
  st.dids.find? (fun d => d.id == id)

def createVerification (st : St) (v : VerifRec) : St :=
  { st with verifs := st.verifs ++ [v] }

def createActivity (st : St) (a : ActivityRec) : St :=
  { st with acts := st.acts ++ [a] }

/-- storage.ts updateUserCurrentDid: point the user row at the given DID. -/
def updateUserCurrentDid (st : St) (userId didId : String) : St :=
  let users2 := st.users.map
    (fun u => if u.id == userId then { u with currentDidId := some didId } else u)
  { st with users := users2 }

/-- storage.ts createDid: insert the DID row, then set it as the
current DID of its owner. -/
def createDid (st : St) (d : DidRec) : St :=
  let st1 : St := { st with dids := st.dids ++ [d] }
  updateUserCurrentDid st1 d.userId d.id

/-- storage.ts getCurrentDidForUser: follow the currentDidId pointer
when set; otherwise fall back to the first DID of the user and record
it as current. -/
def getCurrentDidForUser (st : St) (uid : String) : Option DidRec × St :=
  match (st.users.find? (fun u => u.id == uid)).bind (fun u => u.currentDidId) with
  | some didId => (getDid st didId, st)
  | none =>
    match st.dids.filter (fun d => d.userId == uid) with
    | [] => (none, st)
    | d :: _ => (some d, updateUserCurrentDid st uid d.id)

/-- storage.ts updateCredentialStatus: set the status column and
return the updated row when it exists. -/
def updateCredentialStatus (st : St) (id status : String) : Option Cred × St :=
  let creds2 := st.creds.map
    (fun c => if c.id == some id then { c with status := some status } else c)
  (creds2.find? (fun c => c.id == some id), { st with creds := creds2 })

/-! ### Handler state effects -/

/-- Outcome of a verification handler. -/
inductive VerifyResponse where
  | ok (isValid : Bool)
  | badRequest
  | notFound
deriving Repr, DecidableEq

/-- The single Verification row written by the self-serve handler
(routes.ts 968-979). -/
def selfVerifRecord (c : Cred) (now : Int) : VerifRec :=
  { credentialId := c.id
    verifierDid := some "did:example:verifier"
    isValid := if selfServeIsValid c now then "true" else "false"
    verificationMethod := "signature"
    result := [("signatureValid", selfSignatureValid),
               ("notExpired", notExpiredOf c now),
               ("issuerTrusted", issuerTrusted),
               ("proofVerified", selfProofVerified)] }

/-- The single Verification row written by the admin handler
(routes.ts 612-627). -/
def adminVerifRecord (rawVerify : String → String → String → Bool) (st : St)
    (c : Cred) (orgId : String) (now : Int) : VerifRec :=
  { credentialId := c.id
    verifierDid := (st.orgs.find? (fun o => o.id == orgId)).map
      (fun o => "did:org:" ++ o.id)
    isValid := if adminIsValid c now then "true" else "false"
    verificationMethod := "signature"
    result := [("signatureValid", adminSignatureValidDetail rawVerify st.dids c),
               ("notExpired", notExpiredOf c now),
               ("issuerTrusted", issuerTrusted),
               ("proofVerified", adminProofVerified c),
               ("statusVerified", statusVerifiedOf c)] }

/-- Self-serve POST /api/verify after input resolution (routes.ts
948-1006): structural guard, then one Verification row, then possibly
a credential-verified activity for an authenticated caller. -/
def selfServeHandler (st : St) (c : Cred) (sessionUserId : Option String)
    (now : Int) : VerifyResponse × St :=
  if !(selfGuard c) then (VerifyResponse.badRequest, st)
  else
    let isValid := selfServeIsValid c now
    let st1 := createVerification st (selfVerifRecord c now)
    let st2 :=
      match c.id, sessionUserId with
      | some _, some uid =>
        let r := getCurrentDidForUser st1 uid
        match r.1 with
        | some d => createActivity r.2 { didId := some d.id, type := "credential_verified" }
        | none => r.2
      | _, _ => st1
    (VerifyResponse.ok isValid, st2)

/-- Admin POST /api/admin/verify after input resolution (routes.ts
565-640): structural guard, then one Verification row carrying the
synthetic organization DID when the session organization resolves. -/
def adminHandler (rawVerify : String → String → String → Bool) (st : St)
    (c : Cred) (orgId : String) (now : Int) : VerifyResponse × St :=
  if !(adminGuard c) then (VerifyResponse.badRequest, st)
  else
    let r := adminVerifyResult rawVerify st.dids c now
    let st1 := createVerification st (adminVerifRecord rawVerify st c orgId now)
    (VerifyResponse.ok r.isValid, st1)

/-- Public GET /api/verify/:shareToken (routes.ts 1093-1130): resolve
by share token then by id, compute validity, write nothing. -/
def publicVerifyHandler (st : St) (shareToken : String) (now : Int) :
    VerifyResponse × St :=
  let tok := jsTrim shareToken
  match getCredentialByShareToken st tok with
  | some c => (VerifyResponse.ok (publicIsValid c now), st)
  | none =>
    match getCredential st tok with
    | some c => (VerifyResponse.ok (publicIsValid c now), st)
    | none => (VerifyResponse.notFound, st)

/-! ### Revocation, PATCH /api/credentials/:id/revoke (routes.ts 717-755) -/

inductive RevokeResponse where
  | ok (c : Cred)
  | notFound
  | forbidden
  | failed
deriving Repr, DecidableEq

/-- The revoke handler: ownership walk Credential to DID to user, then
unconditionally set status to revoked and log an activity. -/
def revokeHandler (st : St) (callerId credId : String) : RevokeResponse × St :=
  match getCredential st credId with
  | none => (RevokeResponse.notFound, st)
  | some c =>
    match c.didId.bind (fun di => getDid st di) with
    | none => (RevokeResponse.forbidden, st)
    | some d =>
      if !(d.userId == callerId) then (RevokeResponse.forbidden, st)
      else
        let r := updateCredentialStatus st credId "revoked"
        match r.1 with
        | none => (RevokeResponse.failed, r.2)
        | some uc =>
          let st2 := createActivity r.2 { didId := c.didId, type := "credential_revoked" }
          (RevokeResponse.ok uc, st2)

/-! ### Issuance default expiry, POST /api/credentials/request
(routes.ts 818-821) -/

/-- Five years as used by the source: 365 * 24 * 60 * 60 * 1000 * 5
milliseconds. -/
def fiveYearsMs : Int := 365 * 24 * 60 * 60 * 1000 * 5

/-- routes.ts 818: the issued date defaults to now. -/
def parsedIssuedDate (issuedDate : Option Int) (now : Int) : Int :=
  issuedDate.getD now

/-- routes.ts 819-821: the stored expiry; the GovernmentID default is
based on the current clock, not on the issued date. -/
def parsedExpiresDate (typ : String) (expiresDate : Option Int) (now : Int) :
    Option Int :=
  match expiresDate with
  | some e => some e
  | none => if typ == "GovernmentID" then some (now + fiveYearsMs) else none

/-- Modelled from the spec: default expiry is the issued date plus five
years for the government-ID template, null otherwise. -/
def specExpiresDate (typ : String) (issuedDate expiresDate : Option Int)
    (now : Int) : Option Int :=
  match expiresDate with
  | some e => some e
  | none =>
    if typ == "GovernmentID" then some (parsedIssuedDate issuedDate now + fiveYearsMs)
    else none

/-! ### Key and signature module (server/crypto.ts)

The WebCrypto primitives (JSON key parsing, key import, the raw ECDSA
sign and verify, and the canonical JSON stringify of the payload) are
external library calls; they are passed in as explicit function
parameters.  Hex encoding and decoding of the signature bytes is part
of the source (Buffer hex conversions) and is embedded concretely;
Buffer.from with hex decodes pairwise and stops at the first invalid
pair instead of throwing. -/

def hexDigit (c : Char) : Option Nat :=
  if ('0' ≤ c ∧ c ≤ '9') then some (c.toNat - '0'.toNat)
  else if ('a' ≤ c ∧ c ≤ 'f') then some (c.toNat - 'a'.toNat + 10)
  else if ('A' ≤ c ∧ c ≤ 'F') then some (c.toNat - 'A'.toNat + 10)
  else none

def hexDecodeAux : List Char → List Nat
  | c1 :: c2 :: rest =>
    match hexDigit c1, hexDigit c2 with
    | some h, some l => (16 * h + l) :: hexDecodeAux rest
    | _, _ => []
  | _ => []

/-- Buffer.from(signature, hex): total, never throws. -/
def hexDecode (s : String) : List Nat := hexDecodeAux s.data

def hexDigitChar (n : Nat) : Char :=
  if n < 10 then Char.ofNat (Char.toNat '0' + n)
  else Char.ofNat (Char.toNat 'a' + (n - 10))

def hexEncodeAux : List Nat → List Char
  | [] => []
  | b :: rest => hexDigitChar (b / 16 % 16) :: hexDigitChar (b % 16) :: hexEncodeAux rest

/-- Buffer.toString hex. -/
def hexEncode (bs : List Nat) : String := String.mk (hexEncodeAux bs)

/-- crypto.ts verifySignature: parse the public-key JWK string, import
the verification key, stringify the payload, hex-decode the signature
and call the ECDSA primitive.  The whole body is wrapped in try/catch
returning false, so a failing parse or import (the Option none cases)
degrades to false, and the primitive itself returns a boolean. -/
def verifySignatureM {J K P : Type} (parseJwk : String → Option J)
    (importVerifyKey : J → Option K) (stringify : P → String)
    (rawVerify : K → List Nat → String → Bool)
    (data : P) (signature : String) (publicKeyJwk : String) : Bool :=
  match parseJwk publicKeyJwk with
  | none => false
  | some jwk =>
    match importVerifyKey jwk with
    | none => false
    | some key => rawVerify key (hexDecode signature) (stringify data)

/-- crypto.ts signData: parse the private-key JWK string, import the
signing key, stringify the payload, sign, hex-encode.  signData is not
wrapped in try/catch, so failures surface as none. -/
def signDataM {J K P : Type} (parseJwk : String → Option J)
    (importSignKey : J → Option K) (stringify : P → String)
    (rawSign : K → String → List Nat)
    (data : P) (privateKeyJwk : String) : Option String :=
  match parseJwk privateKeyJwk with
  | none => none
  | some jwk =>
    match importSignKey jwk with
    | none => none
    | some key => some (hexEncode (rawSign key (stringify data)))

/-! ### Concrete fixtures for counterexamples and witnesses -/

/-- A stored credential with verified status, no expiry and a given
signature string. -/
def cSig (s : String) : Cred :=
  { id := some "c1", didId := some "d1", title := some "Degree",
    status := some "verified", expiresAt := none,
    credentialSubject := some "subject-json",
    proof := some { signature := s }, shareToken := some "tok" }

/-- A revoked stored credential with an otherwise passing shape. -/
def cRevoked : Cred :=
  { id := some "c1", didId := some "d1", title := some "Degree",
    status := some "revoked", expiresAt := none,
    credentialSubject := some "subject-json",
    proof := some { signature := "aa" }, shareToken := some "tok" }

/-- A credential that expires at the concrete instant 5. -/
def cExpiresAt5 : Cred :=
  { id := some "c2", didId := some "d1", title := some "Degree",
    status := some "verified", expiresAt := some 5,
    credentialSubject := some "subject-json",
    proof := some { signature := "aa" }, shareToken := some "tok2" }

/-- A small storage state holding one user, one DID and one verified
credential reachable by its share token. -/
def stOne : St :=
  { users := [{ id := "u", currentDidId := some "d1" }]
    dids := [{ id := "d1", userId := "u", didString := "did:key:zabc", publicKey := "pk" }]
    creds := [cSig "aa"]
    verifs := []
    acts := []
    orgs := [{ id := "o1", name := "Org" }] }

/-- A storage state whose only credential is already revoked. -/
def stRevoked : St :=
  { stOne with creds := [cRevoked] }

/-- A user with no DIDs yet, for the DID-creation scenario. -/
def stNoDid : St :=
  { users := [{ id := "u", currentDidId := none }]
    dids := [], creds := [], verifs := [], acts := [], orgs := [] }

def didA : DidRec :=
  { id := "A", userId := "u", didString := "did:key:zA", publicKey := "pkA" }

def didB : DidRec :=
  { id := "B", userId := "u", didString := "did:key:zB", publicKey := "pkB" }

/-! ### Helper lemmas -/

theorem adminProofVerified_eq_spec (c : Cred) :
    adminProofVerified c = specProofVerified c := by
  cases c.proof <;> rfl

theorem verifs_createActivity (st : St) (a : ActivityRec) :
    (createActivity st a).verifs = st.verifs := rfl

theorem verifs_createVerification (st : St) (v : VerifRec) :
    (createVerification st v).verifs = st.verifs ++ [v] := rfl

theorem verifs_updateUserCurrentDid (st : St) (uid did : String) :
    (updateUserCurrentDid st uid did).verifs = st.verifs := rfl

theorem verifs_getCurrentDidForUser (st : St) (uid : String) :
    ((getCurrentDidForUser st uid).2).verifs = st.verifs := by
  unfold getCurrentDidForUser
  split
  · rfl
  · split <;> rfl

theorem normStatus_of_revoked (c : Cred) (h : c.status = some "revoked") :
    normStatus c = "revoked" := by
  simp only [normStatus, h]
  decide

theorem adminIsValid_setSignature (c : Cred) (s : String) (now : Int) :
    adminIsValid (setSignature c s) now =
      (!(isRevokedOf c) && statusVerifiedOf c && notExpiredOf c now && issuerTrusted
        && (c.proof.isSome && !(s == ""))) := by
  cases hp : c.proof <;>
    simp [adminIsValid, adminProofVerified, setSignature, hp, isRevokedOf,
      statusVerifiedOf, notExpiredOf, normStatus]

/-! ### C1 -/

/-- C1 is refuted on the self-serve entry point: this credential has a
proof whose signature field is empty, so the claimed formula yields
false, yet the self-serve path accepts it and returns isValid true. -/
theorem c1_counterexample :
    selfGuard (cSig "") = true ∧ selfServeIsValid (cSig "") 0 = true ∧
      specIsValid (cSig "") 0 = false := by decide

/-- C1 (amended): only the admin entry point computes the validity
formula of the spec (with proofVerified iff a proof with non-empty
signature is present); the self-serve path reduces to
revocation-status-expiry only (signatureValid and proofVerified are
constant true), and the public share-token path likewise has no proof
conjunct. -/
theorem c1_validity_formula_by_entry_point (c : Cred) (now : Int) :
    adminIsValid c now = specIsValid c now ∧
    selfServeIsValid c now =
      (!(isRevokedOf c) && notExpiredOf c now && statusVerifiedOf c) ∧
    publicIsValid c now =
      (!(isRevokedOf c) && notExpiredOf c now && statusVerifiedOf c) := by
  refine ⟨?_, ?_, ?_⟩
  · unfold adminIsValid specIsValid
    rw [adminProofVerified_eq_spec]
  · simp [selfServeIsValid, selfSignatureValid, selfProofVerified, issuerTrusted]
  · simp [publicIsValid, statusVerifiedOf]

/-! ### C2 -/

/-- C2: a credential whose stored status is revoked is rejected by all
three verification entry points, whatever its expiry and signature. -/
theorem c2_revoked_always_invalid (c : Cred) (now : Int)
    (h : c.status = some "revoked") :
    selfServeIsValid c now = false ∧ adminIsValid c now = false ∧
      publicIsValid c now = false := by
  have hn : normStatus c = "revoked" := normStatus_of_revoked c h
  have hr : isRevokedOf c = true := by simp [isRevokedOf, hn]
  refine ⟨?_, ?_, ?_⟩ <;>
    simp [selfServeIsValid, adminIsValid, publicIsValid, hr]

/-- C2 witness: the concrete revoked credential is invalid in all
three entry points. -/
theorem c2_revoked_always_invalid_witness :
    selfServeIsValid cRevoked 0 = false ∧ adminIsValid cRevoked 0 = false ∧
      publicIsValid cRevoked 0 = false :=
  c2_revoked_always_invalid cRevoked 0 rfl

/-! ### C3 -/

/-- C3 is refuted on the admin entry point: two inputs identical
except for the value of the signature field (empty versus non-empty)
get different final validities, because proofVerified tests the
non-emptiness of that value. -/
theorem c3_counterexample :
    setSignature (cSig "00") "" = cSig "" ∧
      adminIsValid (cSig "00") 0 = true ∧ adminIsValid (cSig "") 0 = false := by
  decide

/-- C3 (amended): for inputs identical except for non-empty signature
values, every entry point returns the same final validity; the
self-serve signatureValid detail is the constant true; and the
cryptographic signature-verification primitive never influences the
admin final validity (only its displayed detail). -/
theorem c3_signature_never_load_bearing
    (rv1 rv2 : String → String → String → Bool) (dids1 dids2 : List DidRec)
    (c : Cred) (now : Int) (s1 s2 : String) (h1 : ¬ s1 = "") (h2 : ¬ s2 = "") :
    adminIsValid (setSignature c s1) now = adminIsValid (setSignature c s2) now ∧
    selfServeIsValid (setSignature c s1) now = selfServeIsValid (setSignature c s2) now ∧
    publicIsValid (setSignature c s1) now = publicIsValid (setSignature c s2) now ∧
    selfSignatureValid = true ∧
    (adminVerifyResult rv1 dids1 c now).isValid = (adminVerifyResult rv2 dids2 c now).isValid := by
  have e1 : (s1 == "") = false := by simp [h1]
  have e2 : (s2 == "") = false := by simp [h2]
  refine ⟨?_, rfl, rfl, rfl, rfl⟩
  rw [adminIsValid_setSignature, adminIsValid_setSignature, e1, e2]

/-- C3 witness: concrete instantiation of the amended statement. -/
theorem c3_signature_never_load_bearing_witness :
    adminIsValid (setSignature (cSig "00") "aa") 0 = adminIsValid (setSignature (cSig "00") "bb") 0 ∧
    selfServeIsValid (setSignature (cSig "00") "aa") 0 = selfServeIsValid (setSignature (cSig "00") "bb") 0 ∧
    publicIsValid (setSignature (cSig "00") "aa") 0 = publicIsValid (setSignature (cSig "00") "bb") 0 ∧
    selfSignatureValid = true ∧
    (adminVerifyResult (fun _ _ _ => true) [] (cSig "00") 0).isValid =
      (adminVerifyResult (fun _ _ _ => false) [didA] (cSig "00") 0).isValid :=
  c3_signature_never_load_bearing (fun _ _ _ => true) (fun _ _ _ => false)
    [] [didA] (cSig "00") 0 "aa" "bb" (by decide) (by decide)

/-! ### C6 -/

/-- C6: in the shared expiry check used by all three entry points, a
null expiresAt is never expired, an expiresAt equal to now counts as
expired (and forces isValid false in each entry point), and the check
passes exactly when expiresAt is null or strictly in the future. -/
theorem c6_expiry_boundary (c : Cred) (now : Int) :
    (c.expiresAt = none → notExpiredOf c now = true) ∧
    (c.expiresAt = some now →
      notExpiredOf c now = false ∧ selfServeIsValid c now = false ∧
        adminIsValid c now = false ∧ publicIsValid c now = false) ∧
    (notExpiredOf c now = true ↔
      c.expiresAt = none ∨ ∃ t, c.expiresAt = some t ∧ now < t) := by
  refine ⟨fun h => by simp [notExpiredOf, h], fun h => ?_, ?_⟩
  · have hne : notExpiredOf c now = false := by
      simp [notExpiredOf, h, lt_self_iff_false]
    exact ⟨hne, by simp [selfServeIsValid, hne], by simp [adminIsValid, hne],
      by simp [publicIsValid, hne]⟩
  · cases he : c.expiresAt with
    | none => simp [notExpiredOf, he]
    | some t => simp [notExpiredOf, he]

/-- C6 witness: the concrete credential expiring exactly at instant 5,
verified at instant 5, fails the expiry check and all entry points. -/
theorem c6_expiry_boundary_witness :
    notExpiredOf cExpiresAt5 5 = false ∧ selfServeIsValid cExpiresAt5 5 = false ∧
      adminIsValid cExpiresAt5 5 = false ∧ publicIsValid cExpiresAt5 5 = false :=
  (c6_expiry_boundary cExpiresAt5 5).2.1 rfl

/-! ### C7 -/

/-- C7 is refuted twice: a successful public share-token verification
leaves the whole state untouched, appending no Verification record,
and the self-serve path records the constant placeholder
did:example:verifier even for an authenticated caller whose own DID is
did:key:zabc. -/
theorem c7_counterexample :
    (publicVerifyHandler stOne "tok" 0).1 = VerifyResponse.ok true ∧
    (publicVerifyHandler stOne "tok" 0).2 = stOne ∧
    ((selfServeHandler stOne (cSig "aa") (some "u") 0).2).verifs.map
        (fun v => v.verifierDid) = [some "did:example:verifier"] := by
  decide

/-- C7 (amended): of the three entry points only the self-serve and
admin handlers append a Verification record, each exactly one; the
self-serve verifier identity is the constant placeholder
did:example:verifier, the admin identity is the synthetic
organization DID; the public share-token handler appends none. -/
theorem c7_verification_records (st : St) (c : Cred) (sess : Option String)
    (rv : String → String → String → Bool) (orgId tok : String) (now : Int)
    (hs : selfGuard c = true) (ha : adminGuard c = true) :
    ((selfServeHandler st c sess now).2).verifs =
      st.verifs ++ [selfVerifRecord c now] ∧
    ((adminHandler rv st c orgId now).2).verifs =
      st.verifs ++ [adminVerifRecord rv st c orgId now] ∧
    ((publicVerifyHandler st tok now).2).verifs = st.verifs := by
  refine ⟨?_, ?_, ?_⟩
  · simp only [selfServeHandler, hs, Bool.not_true, Bool.false_eq_true, if_false]
    split
    · rename_i uid hid hsess
      split
      · rw [verifs_createActivity, verifs_getCurrentDidForUser,
          verifs_createVerification]
      · rw [verifs_getCurrentDidForUser, verifs_createVerification]
    · rw [verifs_createVerification]
  · simp only [adminHandler, ha, Bool.not_true, Bool.false_eq_true, if_false]
    rw [verifs_createVerification]
  · simp only [publicVerifyHandler]
    split
    · rfl
    · split <;> rfl

/-- C7 witness: concrete instantiation of the amended statement on the
one-credential state. -/
theorem c7_verification_records_witness :
    ((selfServeHandler stOne (cSig "aa") none 0).2).verifs =
      stOne.verifs ++ [selfVerifRecord (cSig "aa") 0] ∧
    ((adminHandler (fun _ _ _ => false) stOne (cSig "aa") "o1" 0).2).verifs =
      stOne.verifs ++ [adminVerifRecord (fun _ _ _ => false) stOne (cSig "aa") "o1" 0] ∧
    ((publicVerifyHandler stOne "zzz" 0).2).verifs = stOne.verifs :=
  c7_verification_records stOne (cSig "aa") none (fun _ _ _ => false) "o1" "zzz" 0
    (by decide) (by decide)

/-! ### C8 -/

/-- C8 is refuted: with an explicit issued date 0 and the clock at
1000, the stored default expiry for a GovernmentID credential is based
on the clock, not on the issued date claimed by the spec. -/
theorem c8_counterexample :
    parsedExpiresDate "GovernmentID" none 1000 = some (1000 + fiveYearsMs) ∧
    specExpiresDate "GovernmentID" (some 0) none 1000 = some fiveYearsMs ∧
    parsedExpiresDate "GovernmentID" none 1000 ≠
      specExpiresDate "GovernmentID" (some 0) none 1000 := by
  decide

/-- C8 (amended): with no explicit expiry, a GovernmentID credential
gets expiresAt = the current clock at issuance plus five years of 365
days (which equals issued-date plus five years only when the issued
date itself defaults to now); every other type gets a null expiry, and
an explicit expiry is always kept. -/
theorem c8_default_expiry (typ : String) (e now : Int)
    (h : ¬ typ = "GovernmentID") :
    parsedExpiresDate "GovernmentID" none now = some (now + fiveYearsMs) ∧
    parsedExpiresDate typ none now = none ∧
    parsedExpiresDate typ (some e) now = some e ∧
    parsedExpiresDate "GovernmentID" (some e) now = some e := by
  refine ⟨rfl, ?_, rfl, rfl⟩
  simp [parsedExpiresDate, h]

/-- C8 witness: concrete instantiation of the amended statement. -/
theorem c8_default_expiry_witness :
    parsedExpiresDate "GovernmentID" none 3 = some (3 + fiveYearsMs) ∧
    parsedExpiresDate "EducationalCredential" none 3 = none ∧
    parsedExpiresDate "EducationalCredential" (some 7) 3 = some 7 ∧
    parsedExpiresDate "GovernmentID" (some 7) 3 = some 7 :=
  c8_default_expiry "EducationalCredential" 7 3 (by decide)

/-! ### C9 -/

/-- C9 is refuted: after a user creates DID A and then DID B, the
current DID is B, the most recently created one, not the first-created
A, even though the user never explicitly switched. -/
theorem c9_counterexample :
    (getCurrentDidForUser (createDid (createDid stNoDid didA) didB) "u").1 =
        some didB ∧
      ¬ didB = didA := by
  decide

/-- C9 (amended): each user record carries a single currentDidId
pointer, and createDid always re-points it at the newly inserted DID:
after createDid every user row with the creating user id has the new
DID as current (last-created-wins), and the DID table just gets the
new row appended. -/
theorem c9_create_did_sets_current (st : St) (d : DidRec) (u : UserRec)
    (hu : u ∈ (createDid st d).users) (hid : u.id = d.userId) :
    u.currentDidId = some d.id ∧ (createDid st d).dids = st.dids ++ [d] := by
  refine ⟨?_, rfl⟩
  have hu2 : u ∈ st.users.map
      (fun v => if v.id == d.userId then { v with currentDidId := some d.id } else v) := hu
  obtain ⟨v, hv, hvu⟩ := List.mem_map.mp hu2
  cases hb : (v.id == d.userId) with
  | true => rw [← hvu]; simp [hb]
  | false =>
    exfalso
    rw [hb] at hvu
    simp only [Bool.false_eq_true, if_false] at hvu
    rw [hvu, hid] at hb
    simp at hb

/-- C9 witness: concrete instantiation of the amended statement. -/
theorem c9_create_did_sets_current_witness :
    (⟨"u", some "A"⟩ : UserRec).currentDidId = some didA.id ∧
      (createDid stNoDid didA).dids = stNoDid.dids ++ [didA] :=
  c9_create_did_sets_current stNoDid didA ⟨"u", some "A"⟩ (by decide) rfl

/-! ### C10 -/

/-- After setting the status column, looking the credential up again
under the same id finds the updated row. -/
theorem find?_map_setStatus (l : List Cred) (id status : String) (c : Cred)
    (h : l.find? (fun x => x.id == some id) = some c) :
    (l.map (fun x => if x.id == some id then { x with status := some status } else x)).find?
        (fun x => x.id == some id) = some { c with status := some status } := by
  induction l with
  | nil => simp at h
  | cons a l ih =>
    by_cases hp : (a.id == some id) = true
    · rw [List.find?_cons_of_pos (p := fun x : Cred => x.id == some id) _ hp] at h
      obtain rfl : a = c := Option.some.inj h
      have hp2 : (({ a with status := some status } : Cred).id == some id) = true := hp
      simp only [List.map_cons, if_pos hp]
      rw [List.find?_cons_of_pos (p := fun x : Cred => x.id == some id) _ hp2]
    · rw [List.find?_cons_of_neg (p := fun x : Cred => x.id == some id) _ hp] at h
      simp only [List.map_cons, if_neg hp]
      rw [List.find?_cons_of_neg (p := fun x : Cred => x.id == some id) _ hp]
      exact ih h

/-- C10 is refuted: revoking the already-revoked stored credential is
not reported as a no-op or an already-revoked error; the handler
returns the ordinary success response and appends another
credential_revoked activity, exactly like a first revocation. -/
theorem c10_counterexample :
    (revokeHandler stRevoked "u" "c1").1 = RevokeResponse.ok cRevoked ∧
    ((revokeHandler stRevoked "u" "c1").2).acts =
      stRevoked.acts ++ [{ didId := some "d1", type := "credential_revoked" }] := by
  decide

/-- C10 (amended): for any owned, resolvable credential, whatever its
current status (including already revoked), the revoke handler
succeeds, returns the credential with status revoked, and appends a
credential_revoked activity; no already-revoked error path exists. -/
theorem c10_revoke_always_succeeds (st : St) (callerId credId : String)
    (c : Cred) (d : DidRec)
    (hc : getCredential st credId = some c)
    (hd : c.didId.bind (fun di => getDid st di) = some d)
    (howner : d.userId = callerId) :
    (revokeHandler st callerId credId).1 =
      RevokeResponse.ok { c with status := some "revoked" } ∧
    ((revokeHandler st callerId credId).2).acts =
      st.acts ++ [{ didId := c.didId, type := "credential_revoked" }] := by
  have hown : (d.userId == callerId) = true := by simp [howner]
  have hupd : (st.creds.map
      (fun x => if x.id == some credId then { x with status := some "revoked" } else x)).find?
        (fun x => x.id == some credId) = some { c with status := some "revoked" } :=
    find?_map_setStatus st.creds credId "revoked" c hc
  simp only [revokeHandler, hc, hd, hown, Bool.not_true, Bool.false_eq_true, if_false,
    updateCredentialStatus, hupd]
  exact ⟨trivial, rfl⟩

/-- C10 witness: concrete instantiation of the amended statement on the
state whose only credential is still verified. -/
theorem c10_revoke_always_succeeds_witness :
    (revokeHandler stOne "u" "c1").1 =
      RevokeResponse.ok { cSig "aa" with status := some "revoked" } ∧
    ((revokeHandler stOne "u" "c1").2).acts =
      stOne.acts ++ [{ didId := (cSig "aa").didId, type := "credential_revoked" }] :=
  c10_revoke_always_succeeds stOne "u" "c1" (cSig "aa")
    { id := "d1", userId := "u", didString := "did:key:zabc", publicKey := "pk" }
    (by decide) (by decide) rfl

/-! ### C4 -/

/-- C4: the embedded verifySignature is a total boolean function, and
it returns true exactly when the key JSON parses, the key imports and
the raw ECDSA primitive accepts; contrapositively, every structural
failure (malformed key JSON, failing import such as a wrong curve) and
every cryptographic rejection yields false, never an exception.  A
malformed hex signature is decoded leniently by hexDecode, mirroring
the never-throwing Buffer hex decoder. -/
theorem c4_verify_never_throws {J K P : Type} (parseJwk : String → Option J)
    (importVerifyKey : J → Option K) (stringify : P → String)
    (rawVerify : K → List Nat → String → Bool) (data : P) (sig pk : String) :
    verifySignatureM parseJwk importVerifyKey stringify rawVerify data sig pk = true ↔
      ∃ j k, parseJwk pk = some j ∧ importVerifyKey j = some k ∧
        rawVerify k (hexDecode sig) (stringify data) = true := by
  unfold verifySignatureM
  cases hp : parseJwk pk with
  | none => simp [hp]
  | some j =>
    cases hi : importVerifyKey j with
    | none => simp [hp, hi]
    | some k => simp [hp, hi]

/-! ### C5 -/

theorem hexDigit_hexDigitChar : ∀ n < 16, hexDigit (hexDigitChar n) = some n := by
  decide

theorem hexDecodeAux_hexEncodeAux (bs : List Nat) (h : ∀ b ∈ bs, b < 256) :
    hexDecodeAux (hexEncodeAux bs) = bs := by
  induction bs with
  | nil => rfl
  | cons b rest ih =>
    have hb : b < 256 := h b (List.mem_cons_self b rest)
    have hdiv : b / 16 < 16 := by omega
    have hmod : b % 16 < 16 := by omega
    have hdm : b / 16 % 16 = b / 16 := Nat.mod_eq_of_lt hdiv
    rw [hexEncodeAux, hexDecodeAux, hdm, hexDigit_hexDigitChar (b / 16) hdiv,
      hexDigit_hexDigitChar (b % 16) hmod]
    have hval : 16 * (b / 16) + b % 16 = b := Nat.div_add_mod b 16
    change (16 * (b / 16) + b % 16) :: hexDecodeAux (hexEncodeAux rest) = b :: rest
    rw [hval, ih (fun x hx => h x (List.mem_cons_of_mem b hx))]

/-- Hex encoding of a byte list decodes back to itself. -/
theorem hexDecode_hexEncode (bs : List Nat) (h : ∀ b ∈ bs, b < 256) :
    hexDecode (hexEncode bs) = bs :=
  hexDecodeAux_hexEncodeAux bs h

/-- C5: signature round trip through the embedded pipeline.  Whenever
the WebCrypto primitives satisfy their contracts on the generated key
pair (the exported pub and priv JWK strings parse and import, the raw
ECDSA signature consists of bytes and verifies against the same
message), any signature produced by signData verifies under
verifySignature: both ends stringify the payload identically, and the
hex encoding of the signature decodes back to the signed bytes. -/
theorem c5_sign_verify_roundtrip {J K L P : Type} (parseJwk : String → Option J)
    (importVerifyKey : J → Option K) (importSignKey : J → Option L)
    (stringify : P → String) (rawSign : L → String → List Nat)
    (rawVerify : K → List Nat → String → Bool) (data : P)
    (pubJwk privJwk : String) (jPub jPriv : J) (vk : K) (sk : L) (sig : String)
    (hpp : parseJwk pubJwk = some jPub)
    (hiv : importVerifyKey jPub = some vk)
    (hps : parseJwk privJwk = some jPriv)
    (his : importSignKey jPriv = some sk)
    (hbytes : ∀ b ∈ rawSign sk (stringify data), b < 256)
    (hecdsa : rawVerify vk (rawSign sk (stringify data)) (stringify data) = true)
    (hsig : signDataM parseJwk importSignKey stringify rawSign data privJwk = some sig) :
    verifySignatureM parseJwk importVerifyKey stringify rawVerify data sig pubJwk = true := by
  unfold signDataM at hsig
  simp only [hps, his, Option.some.injEq] at hsig
  obtain rfl : hexEncode (rawSign sk (stringify data)) = sig := hsig
  unfold verifySignatureM
  rw [hpp]
  simp only [hiv]
  rw [hexDecode_hexEncode (rawSign sk (stringify data)) hbytes]
  exact hecdsa

/-- C5 witness: concrete instantiation with a toy primitive whose raw
signature is the byte list 171, 5 (hex ab05). -/
theorem c5_sign_verify_roundtrip_witness :
    verifySignatureM (fun _ : String => some (0 : Nat)) (fun _ : Nat => some (0 : Nat))
      (fun _ : Nat => "d") (fun _ bs m => bs == [171, 5] && m == "d")
      (3 : Nat) "ab05" "pub" = true :=
  c5_sign_verify_roundtrip (fun _ : String => some (0 : Nat))
    (fun _ : Nat => some (0 : Nat)) (fun _ : Nat => some (0 : Nat))
    (fun _ : Nat => "d") (fun _ _ => [171, 5])
    (fun _ bs m => bs == [171, 5] && m == "d") 3 "pub" "priv" 0 0 0 0 "ab05"
    rfl rfl rfl rfl (by decide) (by decide) (by decide)

end VertechX
